import Mathlib

/-!
Verification development for the register-map generator scripts
`cpp_generator.py` and `golden_h_generator.py`.

The two scripts share a line-oriented parser (modelled here as a state value
threaded through a per-line step function) and differ in their bit-position
extraction, in the name stored for a register, and in their emitters.
Python strings, tokenization and `int(_, 16)` are modelled on `List Char`
with structural recursion so that every definition evaluates by `decide`.
-/

namespace RegMap

/-- Models Python `str.strip()`: drop whitespace from both ends. -/
def pyStrip (s : String) : String :=
  ⟨((s.data.dropWhile Char.isWhitespace).reverse.dropWhile Char.isWhitespace).reverse⟩

/-- Worker for `splitTokens`: accumulates the current token (reversed). -/
def splitWsAux : List Char → List Char → List String
  | [], acc => if acc.isEmpty then [] else [⟨acc.reverse⟩]
  | c :: rest, acc =>
    if c.isWhitespace then
      if acc.isEmpty then splitWsAux rest [] else ⟨acc.reverse⟩ :: splitWsAux rest []
    else splitWsAux rest (c :: acc)

/-- Models Python `str.split()` with no argument: split on whitespace runs,
dropping empty tokens. -/
def splitTokens (s : String) : List String := splitWsAux s.data []

/-- Models Python `str.startswith(pre)`. -/
def pyStartsWith (s pre : String) : Bool := pre.data.isPrefixOf s.data

/-- Models Python `str.upper()` on the ASCII identifiers used in register maps. -/
def pyUpper (s : String) : String := ⟨s.data.map Char.toUpper⟩

/-- Value of one hexadecimal digit, or `none`. -/
def hexDigitVal (c : Char) : Option Nat :=
  if c.isDigit then some (c.toNat - 48)
  else if 'a' ≤ c ∧ c ≤ 'f' then some (c.toNat - 87)
  else if 'A' ≤ c ∧ c ≤ 'F' then some (c.toNat - 55)
  else none

/-- Accumulate hexadecimal digits; fails on the first non-hex character. -/
def pyIntHexCore : List Char → Nat → Option Nat
  | [], acc => some acc
  | c :: rest, acc =>
    match hexDigitVal c with
    | some d => pyIntHexCore rest (acc * 16 + d)
    | none => none

/-- Models Python `int(s, 16)` on the whitespace-free tokens produced by
`str.split()`, for the unsigned literals of the register-map format (an
optional `0x`/`0X` prefix followed by hex digits); `none` models the
`ValueError` raised on anything else. -/
def pyIntHex (s : String) : Option Nat :=
  let cs := s.data
  let cs := if cs.take 2 = ['0', 'x'] ∨ cs.take 2 = ['0', 'X'] then cs.drop 2 else cs
  match cs with
  | [] => none
  | _ => pyIntHexCore cs 0

/-- Value of a decimal-digit run, as captured by a regex group `(\d+)`. -/
def digitsVal (cs : List Char) : Nat := cs.foldl (fun a c => a * 10 + (c.toNat - 48)) 0

/-- Models Python `f"{n:x}"` for a nonnegative integer: lowercase hex digits. -/
def natToHex (n : Nat) : String := ⟨Nat.toDigits 16 n⟩

/-- Models Python `f"{n:0wx}"` zero-padding for a nonnegative integer. -/
def natToHexPad (w n : Nat) : String :=
  ⟨List.replicate (w - (Nat.toDigits 16 n).length) '0' ++ Nat.toDigits 16 n⟩

/-- Models Python `f"{i:x}"` on a possibly negative integer. -/
def intToHex (i : Int) : String :=
  if i < 0 then "-" ++ natToHex i.natAbs else natToHex i.toNat

/-- Models Python `f"{i:0wx}"` on a possibly negative integer (the sign counts
towards the field width, as in Python). -/
def intToHexPad (w : Nat) (i : Int) : String :=
  if i < 0 then "-" ++ natToHexPad (w - 1) i.natAbs else natToHexPad w i.toNat

/-- Models Python `hex(n)` for a nonnegative integer. -/
def pyHex (n : Nat) : String := "0x" ++ natToHex n

/-- Concatenation of a list of strings (no separator). -/
def strJoin : List String → String
  | [] => ""
  | s :: rest => s ++ strJoin rest

/-- One named bit-field of a register, as in `Field = namedtuple('Field',
['name', 'position', 'reset_value'])` of both scripts. -/
structure Field where
  name : String
  position : String
  reset_value : Nat
deriving DecidableEq

/-- One parsed register, as in `Register = namedtuple('Register', ['name',
'offset', 'reset_value'])` of both scripts. The offset is an integer because
Python computes `address - base_address`, which can be negative. -/
structure Register where
  name : String
  offset : Int
  reset_value : Nat
deriving DecidableEq

/-- Python truthiness of the `current_reg_name` variable: `None` and the empty
string are falsy. -/
def nameTruthy : Option String → Bool
  | none => false
  | some s => decide (s ≠ "")

/-- The line classifier shared verbatim by both scripts:
`is_new_register = len(parts) > 1 and parts[1].startswith('0x')`
(`cpp_generator.py` line 41, `golden_h_generator.py` line 45). -/
def is_new_register (parts : List String) : Bool :=
  decide (1 < parts.length) && pyStartsWith (parts.getD 1 "") "0x"

namespace Cpp

/-- Scanner for `re.search(r':(\d+)', pos_str)` of `cpp_generator.py`: the
first colon followed by a digit wins, and the group is the maximal digit run
after that colon. -/
def searchColonNum : List Char → Option Nat
  | [] => none
  | c :: rest =>
    if c = ':' ∧ (rest.headD ' ').isDigit = true then
      some (digitsVal (rest.takeWhile Char.isDigit))
    else searchColonNum rest

/-- `parse_bit_position` of `cpp_generator.py` (lines 11-14):
`match = re.search(r':(\d+)', pos_str); return int(match.group(1)) if match else 0`. -/
def parse_bit_position (pos_str : String) : Nat :=
  (searchColonNum pos_str.data).getD 0

/-- `calculate_reset_value` of `cpp_generator.py` (lines 16-22). -/
def calculate_reset_value (fields : List Field) : Nat :=
  fields.foldl (fun total field =>
    total ||| (field.reset_value <<< parse_bit_position field.position)) 0

/-- The mutable parse-loop variables of `parse_reg_map_file` in
`cpp_generator.py` (lines 26-30), threaded as an explicit state. -/
structure ParseState where
  registers : List Register
  base_address : Option Nat
  current_fields : List Field
  current_reg_name : Option String
  current_reg_offset : Option Int
deriving DecidableEq

/-- Initial parser state (`cpp_generator.py` lines 26-30). -/
def initState : ParseState := ⟨[], none, [], none, none⟩

/-- Close the currently open register if it is truthy and has fields:
the `if current_reg_name and current_fields: registers.append(...)` step,
which appears both at a new-register boundary (lines 46-48) and at end of
input (lines 95-97). -/
def closeCurrent (st : ParseState) : List Register :=
  if nameTruthy st.current_reg_name && decide (st.current_fields ≠ []) then
    st.registers ++ [⟨st.current_reg_name.getD "", st.current_reg_offset.getD 0,
      calculate_reset_value st.current_fields⟩]
  else st.registers

/-- The new-register branch of the parse loop (`cpp_generator.py` lines
44-71).  A `none` from `pyIntHex` models the `ValueError` caught at line 90:
all assignments made before the failing `int` call persist. -/
def processNewRegister (st : ParseState) (parts : List String) : ParseState :=
  let st1 : ParseState := { st with registers := closeCurrent st, current_fields := [] }
  if parts.length < 5 then { st1 with current_reg_name := none }
  else
    let reg_name := parts.getD 0 ""
    let address_str := parts.getD 1 ""
    let field_name := parts.getD 2 ""
    let rest := parts.drop 3
    let position := rest.getD (rest.length - 2) ""
    let reset_str := rest.getLastD ""
    match pyIntHex address_str with
    | none => st1
    | some address =>
      let base := st1.base_address.getD (address &&& 0xFFFFF000)
      let st2 : ParseState := { st1 with
        base_address := some base,
        current_reg_name := some (pyUpper reg_name),
        current_reg_offset := some ((address : Int) - (base : Int)) }
      match pyIntHex reset_str with
      | none => st2
      | some reset_value =>
        { st2 with current_fields := [⟨field_name, position, reset_value⟩] }

/-- The continuation-field branch of the parse loop (`cpp_generator.py` lines
73-88). -/
def processContinuation (st : ParseState) (parts : List String) : ParseState :=
  if !nameTruthy st.current_reg_name then st
  else if parts.length < 3 then st
  else
    let field_name := parts.getD 0 ""
    let rest := parts.drop 1
    let position := rest.getD (rest.length - 2) ""
    let reset_str := rest.getLastD ""
    match pyIntHex reset_str with
    | none => st
    | some reset_value =>
      { st with current_fields := st.current_fields ++ [⟨field_name, position, reset_value⟩] }

/-- One iteration of the `for line_num, raw_line in enumerate(f, 1)` loop of
`parse_reg_map_file` (`cpp_generator.py` lines 33-92): strip, skip blank
lines, tokenize, classify, dispatch. -/
def processLine (st : ParseState) (raw_line : String) : ParseState :=
  let line := pyStrip raw_line
  if line.isEmpty then st
  else
    let parts := splitTokens line
    if is_new_register parts then processNewRegister st parts
    else processContinuation st parts

/-- The full line loop over the input file's lines. -/
def parseLines (lines : List String) : ParseState :=
  lines.foldl processLine initState

/-- `parse_reg_map_file` of `cpp_generator.py` (lines 24-99), with the input
file given as its list of lines: run the loop, flush the still-open register,
return `(registers, base_address)`. -/
def parse_reg_map_file (lines : List String) : List Register × Option Nat :=
  let st := parseLines lines
  (closeCurrent st, st.base_address)

/-- `max_offset` computation of `generate_cpp_code` (lines 105-107): `0` for
an empty map, otherwise `max(r.offset for r in registers)`. -/
def maxOffset : List Register → Int
  | [] => 0
  | r :: rs => rs.foldl (fun m x => max m x.offset) r.offset

/-- Header comment plus the two leading constants (`generate_cpp_code`
lines 110-112). -/
def cppPrologue (class_name : String) (base : Nat) (max_offset : Int) : String :=
  ("// " ++ pyUpper class_name ++ "_APB_S BaseAddress : " ++ pyHex base ++ "\n")
  ++ ("constexpr size_t CNT_REG_END = 0x" ++ intToHex max_offset ++ ";\n")
  ++ "constexpr size_t REG_BYTE_WIDTH = 0x2;\n\n"

/-- One per-register offset constant (`generate_cpp_code` line 116). -/
def cppOffsetLine (reg : Register) : String :=
  "constexpr size_t " ++ reg.name ++ " = 0x" ++ intToHexPad 3 reg.offset ++ ";\n"

/-- The class skeleton (`generate_cpp_code` lines 120-127). -/
def cppClassBlock (class_name : String) : String :=
  ("class " ++ class_name ++ ": public vp::Component \x7b\n")
  ++ "  public:\n"
  ++ ("    " ++ class_name ++ "(const Config& conf);\n")
  ++ ("    ~" ++ class_name ++ "() override = default;\n\n")
  ++ "    void reset(bool active);\n"
  ++ "  private:\n"
  ++ "    uint16_t reg[CNT_REG_END / REG_BYTE_WIDTH + 1];\n"
  ++ "\x7d;\n\n"

/-- Opening of the reset function body (`generate_cpp_code` lines 130-131). -/
def cppResetHeader (class_name : String) : String :=
  ("void " ++ class_name ++ "::reset(bool active) \x7b\n")
  ++ "  if (active) \x7b\n"

/-- One per-register reset assignment (`generate_cpp_code` line 133). -/
def cppResetLine (reg : Register) : String :=
  "    reg[" ++ reg.name ++ " / REG_BYTE_WIDTH] = 0x" ++ natToHex reg.reset_value ++ ";\n"

/-- `generate_cpp_code` of `cpp_generator.py` (lines 102-137).  `hex(None)`
raises `TypeError` in Python when no base address was ever resolved; that
failure is modelled as `none`. -/
def generate_cpp_code (registers : List Register) (base_address : Option Nat)
    (class_name : String) : Option String :=
  match base_address with
  | none => none
  | some base =>
    let max_offset := maxOffset registers
    let cpp := cppPrologue class_name base max_offset
    let cpp := registers.foldl (fun acc reg => acc ++ cppOffsetLine reg) cpp
    let cpp := cpp ++ "\n"
    let cpp := cpp ++ cppClassBlock class_name
    let cpp := cpp ++ cppResetHeader class_name
    let cpp := registers.foldl (fun acc reg => acc ++ cppResetLine reg) cpp
    let cpp := cpp ++ "  \x7d\n\x7d\n"
    some cpp

end Cpp

namespace Golden

/-- Scanner for `re.search(r'\[(\d+):(\d+)\]', pos_str)` of
`golden_h_generator.py`: attempt a full bracketed range at one position.
Maximal-munch on the digit runs is equivalent to the regex because a digit
can be neither `:` nor `]`. -/
def matchRangeLow : List Char → Option Nat
  | [] => none
  | c :: rest =>
    if c = '[' then
      let d1 := rest.takeWhile Char.isDigit
      let rest1 := rest.dropWhile Char.isDigit
      if d1.isEmpty then none
      else if rest1.headD ' ' = ':' then
        let rest2 := rest1.tail
        let d2 := rest2.takeWhile Char.isDigit
        let rest3 := rest2.dropWhile Char.isDigit
        if d2.isEmpty then none
        else if rest3.headD ' ' = ']' then some (digitsVal d2)
        else none
      else none
    else none

/-- Try the range pattern at every start position, as `re.search` does. -/
def searchRangeLow : List Char → Option Nat
  | [] => none
  | c :: rest =>
    match matchRangeLow (c :: rest) with
    | some v => some v
    | none => searchRangeLow rest

/-- Scanner for `re.search(r'\[(\d+)\]', pos_str)`: attempt a single bracketed
number at one position. -/
def matchSingleLow : List Char → Option Nat
  | [] => none
  | c :: rest =>
    if c = '[' then
      let d := rest.takeWhile Char.isDigit
      if d.isEmpty then none
      else if (rest.dropWhile Char.isDigit).headD ' ' = ']' then some (digitsVal d)
      else none
    else none

/-- Try the single-bit pattern at every start position. -/
def searchSingleLow : List Char → Option Nat
  | [] => none
  | c :: rest =>
    match matchSingleLow (c :: rest) with
    | some v => some v
    | none => searchSingleLow rest

/-- `parse_bit_position` of `golden_h_generator.py` (lines 10-18): the range
form `[hi:lo]` yields `lo`, else the single form `[n]` yields `n`, else `0`. -/
def parse_bit_position (pos_str : String) : Nat :=
  match searchRangeLow pos_str.data with
  | some lo => lo
  | none =>
    match searchSingleLow pos_str.data with
    | some n => n
    | none => 0

/-- `calculate_reset_value` of `golden_h_generator.py` (lines 20-26). -/
def calculate_reset_value (fields : List Field) : Nat :=
  fields.foldl (fun total field =>
    total ||| (field.reset_value <<< parse_bit_position field.position)) 0

/-- The mutable parse-loop variables of `parse_reg_map_file` in
`golden_h_generator.py` (lines 30-35); unlike `cpp_generator.py` this script
also keeps the raw (un-uppercased) register name. -/
structure ParseState where
  registers : List Register
  base_address : Option Nat
  current_fields : List Field
  current_reg_name : Option String
  current_reg_offset : Option Int
  current_reg_raw_name : Option String
deriving DecidableEq

/-- Initial parser state (`golden_h_generator.py` lines 30-35). -/
def initState : ParseState := ⟨[], none, [], none, none, none⟩

/-- Close the currently open register (`golden_h_generator.py` lines 49-51 and
91-93); the record stores the raw name. -/
def closeCurrent (st : ParseState) : List Register :=
  if nameTruthy st.current_reg_name && decide (st.current_fields ≠ []) then
    st.registers ++ [⟨st.current_reg_raw_name.getD "", st.current_reg_offset.getD 0,
      calculate_reset_value st.current_fields⟩]
  else st.registers

/-- The new-register branch of the parse loop (`golden_h_generator.py` lines
48-72).  A `none` from `pyIntHex` models the exception caught at line 88:
assignments made before the failing `int` call persist. -/
def processNewRegister (st : ParseState) (parts : List String) : ParseState :=
  let st1 : ParseState := { st with registers := closeCurrent st, current_fields := [] }
  if parts.length < 5 then { st1 with current_reg_name := none }
  else
    let reg_name := parts.getD 0 ""
    let address_str := parts.getD 1 ""
    let field_name := parts.getD 2 ""
    let rest := parts.drop 3
    let position := rest.getD (rest.length - 2) ""
    let reset_str := rest.getLastD ""
    match pyIntHex address_str with
    | none => st1
    | some address =>
      let base := st1.base_address.getD (address &&& 0xFFFFF000)
      let st2 : ParseState := { st1 with
        base_address := some base,
        current_reg_raw_name := some reg_name,
        current_reg_name := some (pyUpper reg_name),
        current_reg_offset := some ((address : Int) - (base : Int)) }
      match pyIntHex reset_str with
      | none => st2
      | some reset_value =>
        { st2 with current_fields := [⟨field_name, position, reset_value⟩] }

/-- The continuation-field branch of the parse loop (`golden_h_generator.py`
lines 74-86). -/
def processContinuation (st : ParseState) (parts : List String) : ParseState :=
  if !nameTruthy st.current_reg_name then st
  else if parts.length < 3 then st
  else
    let field_name := parts.getD 0 ""
    let rest := parts.drop 1
    let position := rest.getD (rest.length - 2) ""
    let reset_str := rest.getLastD ""
    match pyIntHex reset_str with
    | none => st
    | some reset_value =>
      { st with current_fields := st.current_fields ++ [⟨field_name, position, reset_value⟩] }

/-- One iteration of the line loop of `parse_reg_map_file`
(`golden_h_generator.py` lines 38-89). -/
def processLine (st : ParseState) (raw_line : String) : ParseState :=
  let line := pyStrip raw_line
  if line.isEmpty then st
  else
    let parts := splitTokens line
    if is_new_register parts then processNewRegister st parts
    else processContinuation st parts

/-- The full line loop over the input file's lines. -/
def parseLines (lines : List String) : ParseState :=
  lines.foldl processLine initState

/-- `parse_reg_map_file` of `golden_h_generator.py` (lines 28-95): run the
loop, flush the still-open register, return the register list. -/
def parse_reg_map_file (lines : List String) : List Register :=
  let st := parseLines lines
  closeCurrent st

/-- One record of the golden header (`generate_golden_h_code` line 118). -/
def goldenRegLine (reg : Register) : String :=
  "  \x7b0x" ++ intToHexPad 4 reg.offset ++ ", 0x" ++ natToHexPad 4 reg.reset_value
    ++ "\x7d, // " ++ reg.name ++ "\n"

/-- The fixed header of the golden file (`generate_golden_h_code`
lines 104-115). -/
def goldenHeaderText : String :=
  "#pragma once\n\n#include <cstdint>\n#include <vector>\n\nstruct RegInfo \x7b\n  uint32_t offset;\n  uint16_t expected_value;\n\x7d;\n\nstd::vector<RegInfo> golden_regs = \x7b\n"

/-- `generate_golden_h_code` of `golden_h_generator.py` (lines 97-122): a lone
comment line for an empty map, otherwise header, one record per register in
model order, closing brace. -/
def generate_golden_h_code (registers : List Register) : String :=
  if registers.isEmpty then "// No registers found or parsed."
  else
    let header_content := goldenHeaderText
    let header_content := registers.foldl (fun acc reg => acc ++ goldenRegLine reg) header_content
    header_content ++ "\x7d;\n"

end Golden

/-- The (offset, expected_value) data interpolated into the golden header's
records, one per register in model order (`golden_h_generator.py` line 118). -/
def goldenPairs (registers : List Register) : List (Int × Nat) :=
  registers.map (fun r => (r.offset, r.reset_value))

/-- The (name, offset) data interpolated into the code emitter's offset
constants, in model order (`cpp_generator.py` line 116). -/
def cppOffsetConstants (registers : List Register) : List (String × Int) :=
  registers.map (fun r => (r.name, r.offset))

/-- The (constant name, reset value) data interpolated into the code emitter's
`reg[NAME / REG_BYTE_WIDTH] = value` assignments, in model order
(`cpp_generator.py` line 133). -/
def cppResetStatements (registers : List Register) : List (String × Nat) :=
  registers.map (fun r => (r.name, r.reset_value))

/-- First-match lookup of a named constant, as a C++ compiler resolves the
identifier in the emitted index expression. -/
def lookupConst : List (String × Int) → String → Option Int
  | [], _ => none
  | c :: rest, n => if c.1 = n then some c.2 else lookupConst rest n

/-- The reset-body assignments with their index constant resolved against the
emitted offset constants. -/
def cppResetAssignments (registers : List Register) : List (Option Int × Nat) :=
  (cppResetStatements registers).map
    (fun s => (lookupConst (cppOffsetConstants registers) s.1, s.2))

/-! ### Helper lemmas -/

theorem strJoin_foldl_append {α : Type} (f : α → String) :
    ∀ (l : List α) (init : String),
      l.foldl (fun acc x => acc ++ f x) init = init ++ strJoin (l.map f)
  | [], init => by simp [strJoin]
  | x :: xs, init => by
    simp only [List.foldl_cons, List.map_cons, strJoin]
    rw [strJoin_foldl_append f xs (init ++ f x), String.append_assoc]

theorem takeWhile_all_append (p : Char → Bool) :
    ∀ (xs : List Char) (y : Char) (t : List Char), (∀ c ∈ xs, p c = true) → p y = false →
      (xs ++ y :: t).takeWhile p = xs ∧ (xs ++ y :: t).dropWhile p = y :: t
  | [], y, t, _, hy => by
    simp [List.takeWhile_cons, List.dropWhile_cons, hy]
  | x :: xs, y, t, hxs, hy => by
    have hx : p x = true := hxs x (List.mem_cons_self x xs)
    have ih := takeWhile_all_append p xs y t (fun c hc => hxs c (List.mem_cons_of_mem x hc)) hy
    simp [List.takeWhile_cons, List.dropWhile_cons, hx, ih.1, ih.2]

theorem foldl_lor_eq_foldr (g : Field → Nat) :
    ∀ (l : List Field) (acc : Nat),
      l.foldl (fun t f => t ||| g f) acc = acc ||| (l.map g).foldr (· ||| ·) 0
  | [], acc => by simp
  | f :: fs, acc => by
    simp only [List.foldl_cons, List.map_cons, List.foldr_cons]
    rw [foldl_lor_eq_foldr g fs (acc ||| g f), Nat.or_assoc]

theorem Cpp.searchColonNum_append_digits :
    ∀ (xs rest : List Char), (∀ c ∈ xs, c.isDigit = true) →
      Cpp.searchColonNum (xs ++ rest) = Cpp.searchColonNum rest
  | [], _, _ => rfl
  | x :: xs, rest, h => by
    have hx : x.isDigit = true := h x (List.mem_cons_self x xs)
    have hne : x ≠ ':' := by
      intro he; rw [he] at hx; exact absurd hx (by decide)
    simp only [List.cons_append, Cpp.searchColonNum]
    rw [if_neg (fun hc => hne hc.1)]
    exact Cpp.searchColonNum_append_digits xs rest (fun c hc => h c (List.mem_cons_of_mem x hc))

theorem Cpp.searchColonNum_digits_none (cs : List Char) (h : ∀ c ∈ cs, c.isDigit = true) :
    Cpp.searchColonNum cs = none := by
  have := Cpp.searchColonNum_append_digits cs [] h
  simpa using this

theorem Cpp.searchColonNum_range (ds es : List Char)
    (hds : ∀ c ∈ ds, c.isDigit = true) (hes : ∀ c ∈ es, c.isDigit = true) (hne : es ≠ []) :
    Cpp.searchColonNum ('[' :: (ds ++ ':' :: (es ++ [']']))) = some (digitsVal es) := by
  obtain ⟨e, es', rfl⟩ := List.exists_cons_of_ne_nil hne
  have he : e.isDigit = true := hes e (List.mem_cons_self e es')
  have htw := (takeWhile_all_append Char.isDigit es' ']' []
    (fun c hc => hes c (List.mem_cons_of_mem e hc)) (by decide)).1
  simp only [Cpp.searchColonNum]
  rw [if_neg (fun hc => absurd hc.1 (by decide))]
  rw [Cpp.searchColonNum_append_digits ds _ hds]
  simp [Cpp.searchColonNum, he, htw]

theorem Golden.matchRangeLow_not_bracket (c : Char) (rest : List Char) (h : c ≠ '[') :
    Golden.matchRangeLow (c :: rest) = none := by
  simp only [Golden.matchRangeLow]
  rw [if_neg h]

theorem Golden.matchSingleLow_not_bracket (c : Char) (rest : List Char) (h : c ≠ '[') :
    Golden.matchSingleLow (c :: rest) = none := by
  simp only [Golden.matchSingleLow]
  rw [if_neg h]

theorem Golden.searchRangeLow_digits_none :
    ∀ (cs : List Char), (∀ c ∈ cs, c.isDigit = true) → Golden.searchRangeLow cs = none
  | [], _ => rfl
  | c :: rest, h => by
    have hc : c ≠ '[' := by
      intro he
      have := h c (List.mem_cons_self c rest)
      rw [he] at this; exact absurd this (by decide)
    simp only [Golden.searchRangeLow, Golden.matchRangeLow_not_bracket c rest hc]
    exact Golden.searchRangeLow_digits_none rest (fun d hd => h d (List.mem_cons_of_mem c hd))

theorem Golden.searchSingleLow_digits_none :
    ∀ (cs : List Char), (∀ c ∈ cs, c.isDigit = true) → Golden.searchSingleLow cs = none
  | [], _ => rfl
  | c :: rest, h => by
    have hc : c ≠ '[' := by
      intro he
      have := h c (List.mem_cons_self c rest)
      rw [he] at this; exact absurd this (by decide)
    simp only [Golden.searchSingleLow, Golden.matchSingleLow_not_bracket c rest hc]
    exact Golden.searchSingleLow_digits_none rest (fun d hd => h d (List.mem_cons_of_mem c hd))

theorem Golden.searchRangeLow_range (ds es : List Char)
    (hds : ∀ c ∈ ds, c.isDigit = true) (hes : ∀ c ∈ es, c.isDigit = true)
    (hdne : ds ≠ []) (hene : es ≠ []) :
    Golden.searchRangeLow ('[' :: (ds ++ ':' :: (es ++ [']']))) = some (digitsVal es) := by
  have hd1 := takeWhile_all_append Char.isDigit ds ':' (es ++ [']']) hds (by decide)
  have hd2 := takeWhile_all_append Char.isDigit es ']' [] hes (by decide)
  have hmatch : Golden.matchRangeLow ('[' :: (ds ++ ':' :: (es ++ [']']))) =
      some (digitsVal es) := by
    simp [Golden.matchRangeLow, hd1.1, hd1.2, hd2.1, hd2.2, hdne, hene]
  simp only [Golden.searchRangeLow, hmatch]

theorem cppCloseCurrent_append (st : Cpp.ParseState) :
    ∃ t, Cpp.closeCurrent st = st.registers ++ t := by
  unfold Cpp.closeCurrent
  split
  · exact ⟨_, rfl⟩
  · exact ⟨[], (List.append_nil _).symm⟩

theorem cppProcessLine_registers_append (st : Cpp.ParseState) (l : String) :
    ∃ t, (Cpp.processLine st l).registers = st.registers ++ t := by
  obtain ⟨t, ht⟩ := cppCloseCurrent_append st
  simp only [Cpp.processLine, Cpp.processNewRegister, Cpp.processContinuation]
  split
  · exact ⟨[], (List.append_nil _).symm⟩
  split
  · split
    · exact ⟨t, ht⟩
    · split
      · exact ⟨t, ht⟩
      · split
        · exact ⟨t, ht⟩
        · exact ⟨t, ht⟩
  · split
    · exact ⟨[], (List.append_nil _).symm⟩
    · split
      · exact ⟨[], (List.append_nil _).symm⟩
      · split
        · exact ⟨[], (List.append_nil _).symm⟩
        · exact ⟨[], (List.append_nil _).symm⟩

theorem cppProcessLine_base_mono (st : Cpp.ParseState) (l : String) (b : Nat)
    (h : st.base_address = some b) : (Cpp.processLine st l).base_address = some b := by
  simp only [Cpp.processLine, Cpp.processNewRegister, Cpp.processContinuation]
  split
  · exact h
  split
  · split
    · exact h
    · split
      · exact h
      · split
        · simp [h]
        · simp [h]
  · split
    · exact h
    · split
      · exact h
      · split
        · exact h
        · exact h

theorem cppFoldl_base_mono :
    ∀ (lines : List String) (st : Cpp.ParseState) (b : Nat), st.base_address = some b →
      (lines.foldl Cpp.processLine st).base_address = some b
  | [], _, _, h => h
  | l :: ls, st, b, h =>
    cppFoldl_base_mono ls (Cpp.processLine st l) b (cppProcessLine_base_mono st l b h)

theorem cppProcessLine_malformed_cont (st : Cpp.ParseState) (l : String)
    (hclass : is_new_register (splitTokens (pyStrip l)) = false)
    (hmal : (splitTokens (pyStrip l)).length < 3 ∨
      pyIntHex (((splitTokens (pyStrip l)).drop 1).getLastD "") = none) :
    Cpp.processLine st l = st := by
  simp only [Cpp.processLine]
  split
  · rfl
  rw [hclass]
  simp only [Bool.false_eq_true, if_false, Cpp.processContinuation]
  split
  · rfl
  split
  · rfl
  · rename_i hlen
    rcases hmal with hlt | hint
    · exact absurd hlt hlen
    · split
      · rfl
      · rename_i v heq
        rw [hint] at heq
        exact absurd heq (by simp)

theorem goldenCloseCurrent_append (st : Golden.ParseState) :
    ∃ t, Golden.closeCurrent st = st.registers ++ t := by
  unfold Golden.closeCurrent
  split
  · exact ⟨_, rfl⟩
  · exact ⟨[], (List.append_nil _).symm⟩

theorem goldenProcessLine_registers_append (st : Golden.ParseState) (l : String) :
    ∃ t, (Golden.processLine st l).registers = st.registers ++ t := by
  obtain ⟨t, ht⟩ := goldenCloseCurrent_append st
  simp only [Golden.processLine, Golden.processNewRegister, Golden.processContinuation]
  split
  · exact ⟨[], (List.append_nil _).symm⟩
  split
  · split
    · exact ⟨t, ht⟩
    · split
      · exact ⟨t, ht⟩
      · split
        · exact ⟨t, ht⟩
        · exact ⟨t, ht⟩
  · split
    · exact ⟨[], (List.append_nil _).symm⟩
    · split
      · exact ⟨[], (List.append_nil _).symm⟩
      · split
        · exact ⟨[], (List.append_nil _).symm⟩
        · exact ⟨[], (List.append_nil _).symm⟩

theorem goldenProcessLine_base_mono (st : Golden.ParseState) (l : String) (b : Nat)
    (h : st.base_address = some b) : (Golden.processLine st l).base_address = some b := by
  simp only [Golden.processLine, Golden.processNewRegister, Golden.processContinuation]
  split
  · exact h
  split
  · split
    · exact h
    · split
      · exact h
      · split
        · simp [h]
        · simp [h]
  · split
    · exact h
    · split
      · exact h
      · split
        · exact h
        · exact h

theorem goldenProcessLine_malformed_cont (st : Golden.ParseState) (l : String)
    (hclass : is_new_register (splitTokens (pyStrip l)) = false)
    (hmal : (splitTokens (pyStrip l)).length < 3 ∨
      pyIntHex (((splitTokens (pyStrip l)).drop 1).getLastD "") = none) :
    Golden.processLine st l = st := by
  simp only [Golden.processLine]
  split
  · rfl
  rw [hclass]
  simp only [Bool.false_eq_true, if_false, Golden.processContinuation]
  split
  · rfl
  split
  · rfl
  · rename_i hlen
    rcases hmal with hlt | hint
    · exact absurd hlt hlen
    · split
      · rfl
      · rename_i v heq
        rw [hint] at heq
        exact absurd heq (by simp)

theorem Cpp.generate_cpp_code_eq (regs : List Register) (base : Nat) (cn : String) :
    Cpp.generate_cpp_code regs (some base) cn =
      some (Cpp.cppPrologue cn base (Cpp.maxOffset regs)
        ++ strJoin (regs.map Cpp.cppOffsetLine) ++ "\n"
        ++ Cpp.cppClassBlock cn ++ Cpp.cppResetHeader cn
        ++ strJoin (regs.map Cpp.cppResetLine) ++ "  \x7d\n\x7d\n") := by
  simp only [Cpp.generate_cpp_code]
  rw [strJoin_foldl_append, strJoin_foldl_append]

theorem Golden.generate_golden_h_code_eq (regs : List Register) :
    Golden.generate_golden_h_code regs =
      if regs.isEmpty then "// No registers found or parsed."
      else Golden.goldenHeaderText ++ strJoin (regs.map Golden.goldenRegLine) ++ "\x7d;\n" := by
  simp only [Golden.generate_golden_h_code]
  split
  · rfl
  · rw [strJoin_foldl_append]

theorem lookupConst_offsetConstants :
    ∀ (regs : List Register), (regs.map Register.name).Nodup →
      ∀ r ∈ regs, lookupConst (cppOffsetConstants regs) r.name = some r.offset
  | [], _, r, hr => absurd hr (List.not_mem_nil r)
  | r0 :: rs, hnd, r, hr => by
    simp only [List.map_cons, List.nodup_cons] at hnd
    simp only [cppOffsetConstants, List.map_cons, lookupConst]
    rcases List.mem_cons.mp hr with h | h
    · subst h
      simp
    · have hne : ¬(r0.name = r.name) := by
        intro he
        exact hnd.1 (he ▸ List.mem_map_of_mem Register.name h)
      rw [if_neg hne]
      have := lookupConst_offsetConstants rs hnd.2 r h
      simpa [cppOffsetConstants] using this

/-! ### Claim theorems -/

/-- Claim C1: for every register produced by parsing, the composite reset
value equals the bitwise OR, over the register's fields in declaration order,
of each field's reset value shifted left by the low bit extracted from its
position token; two fields `[15:8]=0x01` and `[7:0]=0x02` on one register
yield composite reset `0x0102`.  Stated for both scripts as an OR-fold over
the field list, together with the hand-computed example, both directly and
through the full parser. -/
theorem claim_C1_composite_reset :
    (∀ fields : List Field, Cpp.calculate_reset_value fields
        = (fields.map (fun f => f.reset_value <<< Cpp.parse_bit_position f.position)).foldr
            (· ||| ·) 0)
    ∧ (∀ fields : List Field, Golden.calculate_reset_value fields
        = (fields.map (fun f => f.reset_value <<< Golden.parse_bit_position f.position)).foldr
            (· ||| ·) 0)
    ∧ Cpp.calculate_reset_value [⟨"A", "[15:8]", 1⟩, ⟨"B", "[7:0]", 2⟩] = 0x0102
    ∧ Golden.calculate_reset_value [⟨"A", "[15:8]", 1⟩, ⟨"B", "[7:0]", 2⟩] = 0x0102
    ∧ Cpp.parse_reg_map_file ["R 0x40007000 A rw [15:8] 0x01", "B rw [7:0] 0x02"]
        = ([⟨"R", 0, 0x0102⟩], some 0x40007000)
    ∧ Golden.parse_reg_map_file ["R 0x40007000 A rw [15:8] 0x01", "B rw [7:0] 0x02"]
        = [⟨"R", 0, 0x0102⟩] := by
  refine ⟨fun fields => ?_, fun fields => ?_, by decide, by decide, by decide, by decide⟩
  · have := foldl_lor_eq_foldr
      (fun f => f.reset_value <<< Cpp.parse_bit_position f.position) fields 0
    simpa [Cpp.calculate_reset_value] using this
  · have := foldl_lor_eq_foldr
      (fun f => f.reset_value <<< Golden.parse_bit_position f.position) fields 0
    simpa [Golden.calculate_reset_value] using this

/-- Claim C2 counterexample: the claim says a bare decimal token yields its
own value (so `"7"` would yield `7`) and the single-bit form `[n]` yields `n`
in both scripts; in fact both scripts yield `0` for `"7"`, and
`cpp_generator.py` yields `0` for `"[5]"`. -/
theorem claim_C2_counterexample :
    Cpp.parse_bit_position "7" = 0 ∧ Golden.parse_bit_position "7" = 0
    ∧ ¬(Golden.parse_bit_position "7" = 7) ∧ ¬(Cpp.parse_bit_position "[5]" = 5) := by
  decide

/-- Claim C2 (amended): the range form `[hi:lo]` yields `lo` in both scripts;
the single-bit form `[n]` yields `n` in `golden_h_generator.py` but `0` in
`cpp_generator.py`; and a bare decimal token (only digits) yields `0` in both
scripts — there is no bare-decimal fallback. -/
theorem claim_C2_amended :
    (∀ cs : List Char, (∀ c ∈ cs, c.isDigit = true) →
      Cpp.parse_bit_position ⟨cs⟩ = 0 ∧ Golden.parse_bit_position ⟨cs⟩ = 0)
    ∧ Cpp.parse_bit_position "[15:8]" = 8 ∧ Golden.parse_bit_position "[15:8]" = 8
    ∧ Cpp.parse_bit_position "[5]" = 0 ∧ Golden.parse_bit_position "[5]" = 5 := by
  refine ⟨fun cs h => ⟨?_, ?_⟩, by decide, by decide, by decide, by decide⟩
  · show (Cpp.searchColonNum cs).getD 0 = 0
    rw [Cpp.searchColonNum_digits_none cs h]
    rfl
  · have h1 := Golden.searchRangeLow_digits_none cs h
    have h2 := Golden.searchSingleLow_digits_none cs h
    simp [Golden.parse_bit_position, h1, h2]

/-- Witness for the amended C2 at the bare-decimal token `"7"`. -/
theorem claim_C2_amended_witness :
    Cpp.parse_bit_position ⟨['7']⟩ = 0 ∧ Golden.parse_bit_position ⟨['7']⟩ = 0 :=
  claim_C2_amended.1 ['7'] (by decide)

/-- Claim C3 counterexample: in the input `["A 0x1FFF", "B 0x40007000 F rw
[0:0] 0x1"]` the first line is classified as a new-register line (two tokens,
second starts with `0x`), so the claim makes the base address `0x1FFF &
0xFFFFF000 = 0x1000`; the code skips that malformed line before reaching the
base-address assignment and sets the base from the second line instead. -/
theorem claim_C3_counterexample :
    is_new_register (splitTokens (pyStrip "A 0x1FFF")) = true
    ∧ (Cpp.parse_reg_map_file ["A 0x1FFF", "B 0x40007000 F rw [0:0] 0x1"]).2 = some 0x40007000
    ∧ (0x1FFF &&& 0xFFFFF000 : Nat) = 0x1000
    ∧ (0x40007000 : Nat) ≠ 0x1000 := by
  decide

/-- Claim C3 (amended): the base address is set at most once, from the first
new-register line whose address actually parses (at least 5 tokens, valid hex
address), masked with `0xFFFFF000`; once set, no subsequently processed line
changes it, regardless of whether later addresses are lower or higher. -/
theorem claim_C3_amended :
    (∀ (st : Cpp.ParseState) (l : String) (b : Nat), st.base_address = some b →
        (Cpp.processLine st l).base_address = some b)
    ∧ (∀ (lines : List String) (st : Cpp.ParseState) (b : Nat), st.base_address = some b →
        (lines.foldl Cpp.processLine st).base_address = some b)
    ∧ (∀ (st : Golden.ParseState) (l : String) (b : Nat), st.base_address = some b →
        (Golden.processLine st l).base_address = some b)
    ∧ Cpp.parse_reg_map_file ["A 0x40007800 F rw [0:0] 0x1", "B 0x40006000 G rw [0:0] 0x1"]
        = ([⟨"A", 0x800, 1⟩, ⟨"B", -4096, 1⟩], some 0x40007000) :=
  ⟨cppProcessLine_base_mono, cppFoldl_base_mono, goldenProcessLine_base_mono, by decide⟩

/-- Witness for the amended C3: a state with base address `5` keeps it across
a later register line at a different address. -/
theorem claim_C3_amended_witness :
    (Cpp.processLine ⟨[], some 5, [], none, none⟩ "Q 0x40008000 F rw [0:0] 0x1").base_address
      = some 5 :=
  claim_C3_amended.1 ⟨[], some 5, [], none, none⟩ "Q 0x40008000 F rw [0:0] 0x1" 5 rfl

/-- Claim C4 counterexample: the claim classifies a line as a new register
when the second token begins with `0x` or `0X`; the code's check
`parts[1].startswith('0x')` is case-sensitive, so a second token beginning
with `0X` is treated as a continuation line and, with no register open, the
line is discarded entirely. -/
theorem claim_C4_counterexample :
    1 < (splitTokens (pyStrip "Reg 0X40007000 EN rw [0:0] 0x1")).length
    ∧ pyStartsWith ((splitTokens (pyStrip "Reg 0X40007000 EN rw [0:0] 0x1")).getD 1 "") "0X"
        = true
    ∧ is_new_register (splitTokens (pyStrip "Reg 0X40007000 EN rw [0:0] 0x1")) = false
    ∧ Cpp.parse_reg_map_file ["Reg 0X40007000 EN rw [0:0] 0x1"] = ([], none) := by
  decide

/-- Claim C4 (amended): a trimmed non-empty line starts a new register iff it
has at least two whitespace-separated tokens and the second begins with the
lowercase prefix `0x`; a second token beginning with `0X` is treated as a
continuation line. -/
theorem claim_C4_amended :
    (∀ parts : List String, is_new_register parts = true ↔
        2 ≤ parts.length ∧ pyStartsWith (parts.getD 1 "") "0x" = true)
    ∧ Cpp.parse_reg_map_file ["Reg 0x40007000 EN rw [0:0] 0x1"]
        = ([⟨"REG", 0, 1⟩], some 0x40007000)
    ∧ Cpp.parse_reg_map_file ["Reg 0X40007000 EN rw [0:0] 0x1"] = ([], none)
    ∧ Golden.parse_reg_map_file ["Reg 0X40007000 EN rw [0:0] 0x1"] = [] := by
  refine ⟨fun parts => ?_, by decide, by decide, by decide⟩
  simp only [is_new_register, Bool.and_eq_true, decide_eq_true_eq]
  constructor
  · rintro ⟨h1, h2⟩
    exact ⟨by omega, h2⟩
  · rintro ⟨h1, h2⟩
    exact ⟨by omega, h2⟩

/-- Claim C5 counterexample: the malformed line `"BAD 0xZZ"` (classified as a
new-register line, too few tokens) does affect the register open before it:
the register `R` is closed immediately with only its first field, and the
following field line `F2` is discarded, so the parse differs from the same
input without the malformed line. -/
theorem claim_C5_counterexample :
    (Cpp.parse_reg_map_file ["R 0x40007000 F1 rw [0:0] 0x1", "BAD 0xZZ",
        "F2 rw [8:8] 0x1"]).1 = [⟨"R", 0, 1⟩]
    ∧ (Cpp.parse_reg_map_file ["R 0x40007000 F1 rw [0:0] 0x1", "F2 rw [8:8] 0x1"]).1
        = [⟨"R", 0, 257⟩]
    ∧ ([⟨"R", 0, (1 : Nat)⟩] : List Register) ≠ [⟨"R", 0, 257⟩] := by
  decide

/-- Claim C5 (amended): parsing continues past a malformed line and the line
itself contributes no field or register.  A malformed continuation line (too
few tokens, or an unparsable reset literal) leaves the parser state exactly
unchanged, so the open register is unaffected; a malformed line classified as
a new register, however, first closes the previously open register (its
already-accumulated fields intact) and leaves no register open, so later
continuation lines are discarded. -/
theorem claim_C5_amended :
    (∀ (st : Cpp.ParseState) (l : String),
        is_new_register (splitTokens (pyStrip l)) = false →
        ((splitTokens (pyStrip l)).length < 3 ∨
          pyIntHex (((splitTokens (pyStrip l)).drop 1).getLastD "") = none) →
        Cpp.processLine st l = st)
    ∧ (∀ (st : Golden.ParseState) (l : String),
        is_new_register (splitTokens (pyStrip l)) = false →
        ((splitTokens (pyStrip l)).length < 3 ∨
          pyIntHex (((splitTokens (pyStrip l)).drop 1).getLastD "") = none) →
        Golden.processLine st l = st)
    ∧ Cpp.parse_reg_map_file ["R 0x40007000 F1 rw [0:0] 0x1", "BAD 0xZZ", "F2 rw [8:8] 0x1"]
        = ([⟨"R", 0, 1⟩], some 0x40007000)
    ∧ (Cpp.parseLines ["R 0x40007000 F1 rw [0:0] 0x1", "BAD 0xZZ",
        "F2 rw [8:8] 0x1"]).current_reg_name = none :=
  ⟨cppProcessLine_malformed_cont, goldenProcessLine_malformed_cont, by decide, by decide⟩

/-- Witness for the amended C5 at the two-token continuation line `"XY"`. -/
theorem claim_C5_amended_witness :
    Cpp.processLine Cpp.initState "XY" = Cpp.initState :=
  claim_C5_amended.1 Cpp.initState "XY" (by decide) (Or.inl (by decide))

/-- Claim C6: registers appear in the parsed model and in both emitters'
outputs in first-declaration order: the parser only ever appends to the
register list, both emitters render the register list by mapping over it in
list order, and a register declared first at a higher address renders before
one declared second at a lower address. -/
theorem claim_C6_insertion_order :
    (∀ (st : Cpp.ParseState) (l : String),
        ∃ t, (Cpp.processLine st l).registers = st.registers ++ t)
    ∧ (∀ (st : Golden.ParseState) (l : String),
        ∃ t, (Golden.processLine st l).registers = st.registers ++ t)
    ∧ (∀ (regs : List Register) (base : Nat) (cn : String),
        Cpp.generate_cpp_code regs (some base) cn
          = some (Cpp.cppPrologue cn base (Cpp.maxOffset regs)
              ++ strJoin (regs.map Cpp.cppOffsetLine) ++ "\n"
              ++ Cpp.cppClassBlock cn ++ Cpp.cppResetHeader cn
              ++ strJoin (regs.map Cpp.cppResetLine) ++ "  \x7d\n\x7d\n"))
    ∧ (∀ regs : List Register, Golden.generate_golden_h_code regs
        = if regs.isEmpty then "// No registers found or parsed."
          else Golden.goldenHeaderText ++ strJoin (regs.map Golden.goldenRegLine) ++ "\x7d;\n")
    ∧ Cpp.parse_reg_map_file ["RH 0x40007F00 F rw [0:0] 0x1", "RL 0x40007000 G rw [0:0] 0x2"]
        = ([⟨"RH", 0xF00, 1⟩, ⟨"RL", 0, 2⟩], some 0x40007000)
    ∧ Golden.parse_reg_map_file ["RH 0x40007F00 F rw [0:0] 0x1", "RL 0x40007000 G rw [0:0] 0x2"]
        = [⟨"RH", 0xF00, 1⟩, ⟨"RL", 0, 2⟩] :=
  ⟨cppProcessLine_registers_append, goldenProcessLine_registers_append,
    Cpp.generate_cpp_code_eq, Golden.generate_golden_h_code_eq, by decide, by decide⟩

/-- Claim C7: an input whose last opened register still has accumulated fields
at end of input closes it exactly as a new-register boundary would: the
composite reset value is computed with `calculate_reset_value` and the
register is appended to the list, in both scripts; no register is dropped
because the file ended. -/
theorem claim_C7_eof_flush :
    (∀ (lines : List String) (nm : String),
        (Cpp.parseLines lines).current_reg_name = some nm → nm ≠ "" →
        (Cpp.parseLines lines).current_fields ≠ [] →
        (Cpp.parse_reg_map_file lines).1
          = (Cpp.parseLines lines).registers
            ++ [⟨nm, (Cpp.parseLines lines).current_reg_offset.getD 0,
                 Cpp.calculate_reset_value (Cpp.parseLines lines).current_fields⟩])
    ∧ (∀ (lines : List String) (nm : String),
        (Golden.parseLines lines).current_reg_name = some nm → nm ≠ "" →
        (Golden.parseLines lines).current_fields ≠ [] →
        Golden.parse_reg_map_file lines
          = (Golden.parseLines lines).registers
            ++ [⟨(Golden.parseLines lines).current_reg_raw_name.getD "",
                 (Golden.parseLines lines).current_reg_offset.getD 0,
                 Golden.calculate_reset_value (Golden.parseLines lines).current_fields⟩])
    ∧ Cpp.parse_reg_map_file ["TIMER 0x40007000 EN rw [0:0] 0x1", "CNT rw [15:1] 0x0"]
        = ([⟨"TIMER", 0, 1⟩], some 0x40007000) := by
  refine ⟨fun lines nm h1 h2 h3 => ?_, fun lines nm h1 h2 h3 => ?_, by decide⟩
  · have hcond : nameTruthy (some nm) = true := by
      simpa [nameTruthy] using h2
    simp [Cpp.parse_reg_map_file, Cpp.closeCurrent, h1, hcond, h3]
  · have hcond : nameTruthy (some nm) = true := by
      simpa [nameTruthy] using h2
    simp [Golden.parse_reg_map_file, Golden.closeCurrent, h1, hcond, h3]

/-- Witness for C7 at the spec's end-to-end `TIMER` input, whose register is
open with one field when the file ends. -/
theorem claim_C7_eof_flush_witness :
    (Cpp.parse_reg_map_file ["TIMER 0x40007000 EN rw [0:0] 0x1", "CNT rw [15:1] 0x0"]).1
      = (Cpp.parseLines ["TIMER 0x40007000 EN rw [0:0] 0x1", "CNT rw [15:1] 0x0"]).registers
        ++ [⟨"TIMER",
            (Cpp.parseLines ["TIMER 0x40007000 EN rw [0:0] 0x1",
              "CNT rw [15:1] 0x0"]).current_reg_offset.getD 0,
            Cpp.calculate_reset_value
              (Cpp.parseLines ["TIMER 0x40007000 EN rw [0:0] 0x1",
                "CNT rw [15:1] 0x0"]).current_fields⟩] :=
  claim_C7_eof_flush.1 ["TIMER 0x40007000 EN rw [0:0] 0x1", "CNT rw [15:1] 0x0"] "TIMER"
    (by decide) (by decide) (by decide)

/-- Claim C8 counterexample: on an empty input, parsing yields zero registers
and no base address, and the code emitter then fails (Python formats `None`
as hex and raises), rather than producing a well-formed minimal output. -/
theorem claim_C8_counterexample :
    Cpp.parse_reg_map_file [] = ([], none)
    ∧ Cpp.generate_cpp_code [] none "RegBlock" = none := by
  decide

/-- Claim C8 (amended): with zero registers the golden emitter produces the
single explanatory comment line; the code emitter renders its constants with
the highest-offset constant equal to `0` only when a base address was
resolved — when the base address is still `None`, the code emitter fails
instead of producing output. -/
theorem claim_C8_amended :
    (∀ cn : String, Cpp.generate_cpp_code [] none cn = none)
    ∧ Cpp.maxOffset [] = 0
    ∧ intToHex (Cpp.maxOffset []) = "0"
    ∧ (∀ (b : Nat) (cn : String), Cpp.generate_cpp_code [] (some b) cn
        = some (Cpp.cppPrologue cn b 0 ++ "\n" ++ Cpp.cppClassBlock cn
            ++ Cpp.cppResetHeader cn ++ "  \x7d\n\x7d\n"))
    ∧ Golden.generate_golden_h_code [] = "// No registers found or parsed." :=
  ⟨fun _ => rfl, rfl, by decide, fun _ _ => rfl, by decide⟩

/-- Claim C9: for every register map whose register names are distinct (as
required for the emitted C++ to compile), the golden header's `(offset,
expected_value)` pairs equal, register by register, the reset-body
assignments with their index constant resolved against the emitted offset
constants: both emitters take the same offset and the same unmodified
composite reset value from each register, in model order. -/
theorem claim_C9_pairs_match :
    (∀ regs : List Register, (regs.map Register.name).Nodup →
        goldenPairs regs = (cppResetAssignments regs).map (fun p => (p.1.getD 0, p.2)))
    ∧ (∀ regs : List Register, Golden.generate_golden_h_code regs
        = if regs.isEmpty then "// No registers found or parsed."
          else Golden.goldenHeaderText ++ strJoin (regs.map Golden.goldenRegLine) ++ "\x7d;\n")
    ∧ (∀ (regs : List Register) (base : Nat) (cn : String),
        Cpp.generate_cpp_code regs (some base) cn
          = some (Cpp.cppPrologue cn base (Cpp.maxOffset regs)
              ++ strJoin (regs.map Cpp.cppOffsetLine) ++ "\n"
              ++ Cpp.cppClassBlock cn ++ Cpp.cppResetHeader cn
              ++ strJoin (regs.map Cpp.cppResetLine) ++ "  \x7d\n\x7d\n")) := by
  refine ⟨fun regs hnd => ?_, Golden.generate_golden_h_code_eq, Cpp.generate_cpp_code_eq⟩
  simp only [goldenPairs, cppResetAssignments, cppResetStatements, List.map_map]
  refine List.map_congr_left ?_
  intro r hr
  simp [Function.comp, lookupConst_offsetConstants regs hnd r hr]

/-- Witness for C9 on a two-register map with distinct names. -/
theorem claim_C9_pairs_match_witness :
    goldenPairs [⟨"A", 0, 1⟩, ⟨"B", 2, 3⟩]
      = (cppResetAssignments [⟨"A", 0, 1⟩, ⟨"B", 2, 3⟩]).map (fun p => (p.1.getD 0, p.2)) :=
  claim_C9_pairs_match.1 [⟨"A", 0, 1⟩, ⟨"B", 2, 3⟩] (by decide)

/-- Claim C10 counterexample: on the single-bit position token `"[5]"` the two
scripts disagree — `cpp_generator.py` extracts `0` while
`golden_h_generator.py` extracts `5` — so the same field gives composite
reset `1` in one script and `32` in the other. -/
theorem claim_C10_counterexample :
    Cpp.parse_bit_position "[5]" = 0 ∧ Golden.parse_bit_position "[5]" = 5
    ∧ Cpp.calculate_reset_value [⟨"F", "[5]", 1⟩] = 1
    ∧ Golden.calculate_reset_value [⟨"F", "[5]", 1⟩] = 32 := by
  decide

/-- Claim C10 (amended): on position tokens of the bracketed range form
`[hi:lo]` the two `parse_bit_position` functions agree and both return `lo`,
so composite reset values built from range tokens coincide; but on the
single-bit form `[n]` the cpp script returns `0` while the golden script
returns `n`, so the two scripts can compute different composite reset values
from the same input. -/
theorem claim_C10_amended :
    (∀ ds es : List Char, ds ≠ [] → es ≠ [] → (∀ c ∈ ds, c.isDigit = true) →
        (∀ c ∈ es, c.isDigit = true) →
        Cpp.parse_bit_position ⟨'[' :: (ds ++ ':' :: (es ++ [']']))⟩ = digitsVal es
        ∧ Golden.parse_bit_position ⟨'[' :: (ds ++ ':' :: (es ++ [']']))⟩ = digitsVal es)
    ∧ Cpp.parse_bit_position "[5]" = 0 ∧ Golden.parse_bit_position "[5]" = 5 := by
  refine ⟨fun ds es hd he hds hes => ⟨?_, ?_⟩, by decide, by decide⟩
  · show (Cpp.searchColonNum ('[' :: (ds ++ ':' :: (es ++ [']'])))).getD 0 = digitsVal es
    rw [Cpp.searchColonNum_range ds es hds hes he]
    rfl
  · have h1 := Golden.searchRangeLow_range ds es hds hes hd he
    simp [Golden.parse_bit_position, h1]

/-- Witness for the amended C10 at the range token `"[15:8]"`. -/
theorem claim_C10_amended_witness :
    Cpp.parse_bit_position ⟨'[' :: (['1', '5'] ++ ':' :: (['8'] ++ [']']))⟩ = digitsVal ['8']
    ∧ Golden.parse_bit_position ⟨'[' :: (['1', '5'] ++ ':' :: (['8'] ++ [']']))⟩
        = digitsVal ['8'] :=
  claim_C10_amended.1 ['1', '5'] ['8'] (by decide) (by decide) (by decide) (by decide)

end RegMap
